import Mathlib

/-!
Verification of the entity-merge engine of openupgradelib
(src/openupgradelib/openupgrade_merge_records.py) against its
natural-language specification.

The relevant Python functions are shallowly embedded as executable Lean
definitions over a small model of Python values (PyVal) and of the
relational state the engine mutates.  Modelling conventions, stated once:

* Python dicts are association lists with unique keys; dict update keeps
  the original key order and appends fresh keys, as CPython does.
* Machine numerics (int/float/monetary columns) are modelled as integers,
  exact for the sums, maxima and minima the code takes; the avg operation
  is modelled with integer division, exact when the mean is integral (no
  property proved here evaluates avg).
* Date/datetime values are modelled as strings ordered lexicographically
  (ISO dates, as stored by the ORM) or numbers; the embedding orders both.
* Partial Python operations that cannot fail on the states reached by the
  engine (indexing a non-empty list, joining strings, reducing a non-empty
  boolean list) are totalised with neutral defaults.
* SQL row sets returned by IN-queries are modelled in the order the ids
  are listed (target first), which is the order the source assumes.
-/

/-- Execution method of the merge engine: ORM-mediated or direct SQL. -/
inductive Method where
  | orm
  | sql
deriving DecidableEq, Repr

/-- A Python value as stored in a column or manipulated by the engine.
record and links model ORM records and many2many link commands. -/
inductive PyVal where
  | none
  | bool (b : Bool)
  | num (q : Int)
  | str (s : String)
  | dict (entries : List (String × PyVal))
  | record (rid : Nat)
  | links (ops : List (Nat × Nat))

/-- Equality of two non-dict (leaf) values. -/
def pyLeafEq : PyVal → PyVal → Bool
  | PyVal.none, PyVal.none => true
  | PyVal.bool a, PyVal.bool b => a == b
  | PyVal.num a, PyVal.num b => a == b
  | PyVal.str a, PyVal.str b => a == b
  | PyVal.record a, PyVal.record b => a == b
  | PyVal.links a, PyVal.links b => a == b
  | _, _ => false

/-- Python equality of two values.  The jsonb/serialized dicts the engine
manipulates hold scalar leaves, so entry values are compared as leaves;
values of different types are unequal, as in Python. -/
def pyEq : PyVal → PyVal → Bool
  | PyVal.dict d1, PyVal.dict d2 =>
    d1.length == d2.length &&
    (d1.zip d2).all (fun kv => kv.1.1 == kv.2.1 && pyLeafEq kv.1.2 kv.2.2)
  | a, b => pyLeafEq a b

/-- Python truthiness of a value. -/
def pyTruthy : PyVal → Bool
  | PyVal.none => false
  | PyVal.bool b => b
  | PyVal.num q => q != 0
  | PyVal.str s => s != ""
  | PyVal.dict d => !d.isEmpty
  | PyVal.record _ => true
  | PyVal.links l => !l.isEmpty

/-- Numeric content of a value (Python treats True as 1 when summing). -/
def pyNumInt : PyVal → Int
  | PyVal.num q => q
  | PyVal.bool b => if b then 1 else 0
  | _ => 0

/-- String content of a value. -/
def pyStrVal : PyVal → String
  | PyVal.str s => s
  | _ => ""

/-- Record id of a value. -/
def pyRecId : PyVal → Nat
  | PyVal.record i => i
  | _ => 0

/-- Test modelling the Python identity test x is None. -/
def pyIsNone : PyVal → Bool
  | PyVal.none => true
  | _ => false

/-- Test modelling the Python identity test x is False. -/
def pyIsFalse : PyVal → Bool
  | PyVal.bool b => !b
  | _ => false

/-- Dict content of a value; models the expression x or \x7b\x7d. -/
def pyAsDict : PyVal → List (String × PyVal)
  | PyVal.dict d => d
  | _ => []

/-- Strict comparison used by Python max/min on homogeneous column values. -/
def pyLt : PyVal → PyVal → Bool
  | PyVal.num a, PyVal.num b => decide (a < b)
  | PyVal.str a, PyVal.str b => decide (a < b)
  | PyVal.bool a, PyVal.bool b => !a && b
  | _, _ => false

/-- Python max over a list: first maximal element. -/
def pyListMax (l : List PyVal) : PyVal :=
  l.foldl (fun acc x => if pyLt acc x then x else acc) (l.headD PyVal.none)

/-- Python min over a list: first minimal element. -/
def pyListMin (l : List PyVal) : PyVal :=
  l.foldl (fun acc x => if pyLt x acc then x else acc) (l.headD PyVal.none)

/-- Python sum over a list of column values. -/
def pySum (l : List PyVal) : Int :=
  l.foldl (fun acc x => acc + pyNumInt x) 0

/-- Set one key of a Python dict, CPython semantics: replace in place if
present, append otherwise. -/
def assocSet (l : List (String × PyVal)) (k : String) (v : PyVal) :
    List (String × PyVal) :=
  if l.any (fun kv => kv.1 == k) then
    l.map (fun kv => if kv.1 == k then (k, v) else kv)
  else l ++ [(k, v)]

/-- Python dict update d |= x: keys of x overwrite, fresh keys append. -/
def pyDictUnion (d x : List (String × PyVal)) : List (String × PyVal) :=
  x.foldl (fun acc kv => assocSet acc kv.1 kv.2) d

/-- Field types dispatched on by apply_operations_by_field_type. -/
inductive FieldType where
  | char
  | text
  | html
  | jsonb
  | serialized
  | integer
  | float
  | monetary
  | boolean
  | date
  | datetime
  | many2many
  | one2many
  | binary
  | many2one
  | reference
  | many2one_reference
  | selection
deriving DecidableEq, Repr

/-- The ORM-side inputs apply_operations_by_field_type reads from the
environment: the surviving record's current value of the column, the first
origin record's value, and the model_field metadata of a
many2one_reference field together with the mapped companion values. -/
structure OrmCtx where
  targetValue : PyVal
  firstOriginValue : PyVal
  modelField : String
  modelFieldInFields : Bool
  mappedModelField : List PyVal

/-- Context passed on the direct-SQL path, where none of the ORM-side
inputs are consulted. -/
def sqlCtx : OrmCtx := ⟨PyVal.none, PyVal.none, "", false, []⟩

/-- Result of apply_operations_by_field_type: the computed candidate
values, the one2many change counter, and the (possibly mutated) caller
field-policy dict. -/
structure ApplyResult where
  vals : List (String × PyVal)
  o2mChanges : Nat
  fieldSpec : List (String × String)

/-- Truthiness of the operation argument (False or an empty string are
falsy in the source). -/
def opTruthy : Option String → Bool
  | Option.none => false
  | Option.some s => s != ""

/-- The string content of a truthy operation. -/
def opGet (o : Option String) : String := o.getD ""

/-- Embedding of apply_operations_by_field_type
(openupgrade_merge_records.py lines 378-521).  The per-arm value
computations mirror the if/elif chain on field_type; the one2many arm only
counts the change because the write it performs targets the child records,
not the survivor row, exactly as the counter does in the source. -/
def applyOperationsByFieldType (method : Method) (ctx : OrmCtx)
    (fieldSpec : List (String × String)) (fieldVals0 : List PyVal)
    (fieldType : FieldType) (column : String) (operation0 : Option String) :
    ApplyResult :=
  let operation1 :=
    if operation0 == Option.some "first_from_origin" then
      Option.some "first_not_null"
    else operation0
  let fieldVals1 :=
    if method == Method.sql && operation0 == Option.some "first_from_origin"
    then fieldVals0.reverse
    else fieldVals0
  let firstValue :=
    match method with
    | Method.orm =>
      if operation0 == Option.some "first_from_origin" then
        ctx.firstOriginValue
      else ctx.targetValue
    | Method.sql => fieldVals1.headD PyVal.none
  if fieldType == FieldType.char || fieldType == FieldType.text
      || fieldType == FieldType.html then
    let op :=
      if opTruthy operation1 then opGet operation1
      else if fieldType == FieldType.char then "other" else "merge"
    let vals :=
      if op == "first_not_null" then
        match fieldVals1.filter pyTruthy with
        | [] => []
        | v :: _ => [(column, v)]
      else if op == "merge" then
        [(column, PyVal.str (String.intercalate " | "
          ((fieldVals1.filter pyTruthy).map pyStrVal)))]
      else []
    ⟨vals, 0, fieldSpec⟩
  else if fieldType == FieldType.jsonb || fieldType == FieldType.serialized then
    let op := if opTruthy operation1 then opGet operation1 else "first_not_null"
    let vals :=
      if op == "first_not_null" then
        let merged := (fieldVals1.reverse).foldl
          (fun acc x => pyDictUnion acc (pyAsDict x)) []
        if merged.isEmpty then [] else [(column, PyVal.dict merged)]
      else []
    ⟨vals, 0, fieldSpec⟩
  else if fieldType == FieldType.integer || fieldType == FieldType.float
      || fieldType == FieldType.monetary then
    let fv :=
      if opTruthy operation1 || fieldType != FieldType.integer then
        fieldVals1.map (fun x => if pyTruthy x then x else PyVal.num 0)
      else fieldVals1
    let op :=
      if opTruthy operation1 then opGet operation1
      else if fieldType == FieldType.integer then "other" else "sum"
    let vals :=
      if op == "sum" then [(column, PyVal.num (pySum fv))]
      else if op == "avg" then
        [(column, PyVal.num (pySum fv / (fv.length : Int)))]
      else if op == "max" then [(column, pyListMax fv)]
      else if op == "min" then [(column, pyListMin fv)]
      else if op == "first_not_null" then
        match fv.filter pyTruthy with
        | [] => []
        | v :: _ => [(column, v)]
      else []
    ⟨vals, 0, fieldSpec⟩
  else if fieldType == FieldType.boolean then
    let fv :=
      if opTruthy operation1 then
        fieldVals1.map (fun x => if pyIsNone x then PyVal.bool false else x)
      else fieldVals1
    let op := if opTruthy operation1 then opGet operation1 else "other"
    let vals :=
      if op == "and" then [(column, PyVal.bool (fv.all pyTruthy))]
      else if op == "or" then [(column, PyVal.bool (fv.any pyTruthy))]
      else []
    ⟨vals, 0, fieldSpec⟩
  else if fieldType == FieldType.date || fieldType == FieldType.datetime then
    let fv := if opTruthy operation1 then fieldVals1.filter pyTruthy else fieldVals1
    let op :=
      if !fv.isEmpty && opTruthy operation1 then opGet operation1 else "other"
    let vals :=
      if op == "max" then [(column, pyListMax fv)]
      else if op == "min" then [(column, pyListMin fv)]
      else if op == "first_not_null" then
        match fv.filter pyTruthy with
        | [] => []
        | v :: _ => [(column, v)]
      else []
    ⟨vals, 0, fieldSpec⟩
  else if fieldType == FieldType.many2many && method == Method.orm then
    let op := if opTruthy operation1 then opGet operation1 else "merge"
    let vals :=
      if op == "merge" then
        [(column, PyVal.links
          ((fieldVals1.filter (fun x => !pyIsFalse x)).map
            (fun x => (4, pyRecId x))))]
      else []
    ⟨vals, 0, fieldSpec⟩
  else if fieldType == FieldType.one2many && method == Method.orm then
    let op := if opTruthy operation1 then opGet operation1 else "merge"
    ⟨[], if op == "merge" then 1 else 0, fieldSpec⟩
  else if fieldType == FieldType.binary then
    let op := if opTruthy operation1 then opGet operation1 else "merge"
    let vals :=
      if op == "merge" then
        let fv := fieldVals1.filter pyTruthy
        if !pyTruthy firstValue && !fv.isEmpty then
          [(column, fv.headD PyVal.none)]
        else []
      else []
    ⟨vals, 0, fieldSpec⟩
  else if fieldType == FieldType.many2one || fieldType == FieldType.reference then
    let op := if opTruthy operation1 then opGet operation1 else "merge"
    let vals :=
      if op == "merge" then
        let fv :=
          if method != Method.orm then fieldVals1.filter pyTruthy else fieldVals1
        if !pyTruthy firstValue && !fv.isEmpty then
          if method == Method.orm then
            [(column, PyVal.num (Int.ofNat (pyRecId (fv.headD PyVal.none))))]
          else [(column, fv.headD PyVal.none)]
        else []
      else []
    ⟨vals, 0, fieldSpec⟩
  else if fieldType == FieldType.many2one_reference && method == Method.orm
      && ctx.modelFieldInFields then
    let op := if opTruthy operation1 then opGet operation1 else "merge"
    if op == "merge" then
      let fs1 :=
        if fieldSpec.any (fun kv => kv.1 == ctx.modelField) then
          fieldSpec.filter (fun kv => kv.1 != ctx.modelField)
        else fieldSpec
      let zipList := (fieldVals1.zip ctx.mappedModelField).filter
        (fun xy => pyTruthy xy.1 && pyTruthy xy.2)
      let vals :=
        if pyTruthy firstValue && !zipList.isEmpty then
          [(column, (zipList.headD (PyVal.none, PyVal.none)).1),
           (ctx.modelField, (zipList.headD (PyVal.none, PyVal.none)).2)]
        else []
      ⟨vals, 0, fs1⟩
    else ⟨[], 0, fieldSpec⟩
  else if fieldType == FieldType.selection then
    let vals :=
      if operation1 == Option.some "first_not_null" then
        match fieldVals1.filter pyTruthy with
        | [] => []
        | v :: _ => [(column, v)]
      else []
    ⟨vals, 0, fieldSpec⟩
  else ⟨[], 0, fieldSpec⟩


/-! ## Reference relinker: _change_foreign_key_refs (lines 20-127) -/

/-- A row of a table holding a foreign key to the merged model: its own id
column (meaningful only when the table has one), the referencing column,
and the projection of the remaining columns that share a unique index with
it. -/
structure FkRow where
  rid : Nat
  fk : Nat
  other : Nat
deriving DecidableEq, Repr

/-- A referencing table discovered from the catalog: whether it has an id
column of its own (column_exists(table, id)), whether a unique index
covers (fk, other), and its rows. -/
structure FkTable where
  hasId : Bool
  uniqFkOther : Bool
  rows : List FkRow
deriving DecidableEq, Repr

/-- Two rows collide on the unique index over (fk, other). -/
def dupFkKeys : List FkRow → Bool
  | [] => false
  | r :: rs =>
    rs.any (fun r2 => r2.fk == r.fk && r2.other == r.other) || dupFkKeys rs

/-- The set-based UPDATE table SET column = target WHERE column IN dups. -/
def bulkUpdateFk (recordIds : List Nat) (targetRecordId : Nat)
    (rows : List FkRow) : List FkRow :=
  rows.map (fun r =>
    if recordIds.contains r.fk then ⟨r.rid, targetRecordId, r.other⟩ else r)

/-- State-level embedding of _change_foreign_key_refs for one discovered
(table, column) edge.  A statement raises UNIQUE_VIOLATION exactly when
its result breaks the unique index, in which case the savepoint rollback
restores the previous rows.  The Python iterates list(set(...)) in
unspecified order; the embedding fixes first-occurrence order, and the
properties proved are order-independent. -/
def changeForeignKeyRefsTable (recordIds : List Nat) (targetRecordId : Nat)
    (t : FkTable) : FkTable :=
  if !(t.uniqFkOther
      && dupFkKeys (bulkUpdateFk recordIds targetRecordId t.rows)) then
    ⟨t.hasId, t.uniqFkOther, bulkUpdateFk recordIds targetRecordId t.rows⟩
  else if t.hasId then
    ⟨t.hasId, t.uniqFkOther,
     (((t.rows.filter (fun r => recordIds.contains r.fk)).map
        (fun r => r.rid)).dedup).foldl (fun rs i =>
          if t.uniqFkOther && dupFkKeys (rs.map (fun r =>
              if r.rid == i then ⟨r.rid, targetRecordId, r.other⟩ else r)) then
            rs
          else rs.map (fun r =>
            if r.rid == i then ⟨r.rid, targetRecordId, r.other⟩ else r))
        t.rows⟩
  else
    ⟨t.hasId, t.uniqFkOther,
     ((((t.rows.filter (fun r => recordIds.contains r.fk)).map
        (fun r => r.fk)).dedup).foldl (fun rs v =>
          if t.uniqFkOther && dupFkKeys (rs.map (fun r =>
              if r.fk == v then ⟨r.rid, targetRecordId, r.other⟩ else r)) then
            rs
          else rs.map (fun r =>
            if r.fk == v then ⟨r.rid, targetRecordId, r.other⟩ else r))
        t.rows).filter (fun r => !(recordIds.contains r.fk))⟩

/-- Error classes distinguished by _change_foreign_key_refs; otherError
stands for any caught database error whose pgcode is neither
UNDEFINED_COLUMN nor UNIQUE_VIOLATION. -/
inductive PgErr where
  | uniqueViolation
  | undefinedColumn
  | otherError
deriving DecidableEq, Repr

/-- What the store reports for one table: the outcome of the set-based
UPDATE, and the outcomes of the per-row fallback updates in order. -/
structure FkAttempt where
  bulk : Option PgErr
  rowResults : List (Option PgErr)
deriving DecidableEq, Repr

/-- Control outcome for one table: whether the row-by-row fallback ran,
whether the table was skipped through the UNDEFINED_COLUMN/extra_where
path, and how many per-row savepoints were rolled back. -/
structure FkOutcome where
  retriedRowByRow : Bool
  tableSkipped : Bool
  rowsRolledBack : Nat
deriving DecidableEq, Repr

/-- The per-row fallback loop: each row update runs in savepoint sp2;
a UNIQUE_VIOLATION is rolled back and absorbed, any other caught error is
rolled back and re-raised (lines 91-112). -/
def fkRowFallback : List (Option PgErr) → Nat → Except PgErr FkOutcome
  | [], n => Except.ok ⟨true, false, n⟩
  | Option.none :: rest, n => fkRowFallback rest n
  | Option.some e :: rest, n =>
    if e != PgErr.uniqueViolation then Except.error e
    else fkRowFallback rest (n + 1)

/-- Control-level embedding of _change_foreign_key_refs for one table
(lines 49-127): the set-based UPDATE runs in savepoint sp1; on failure the
savepoint is rolled back, then UNDEFINED_COLUMN with an extra_where skips
the table, any error other than UNIQUE_VIOLATION is re-raised, and a
UNIQUE_VIOLATION triggers the row-by-row fallback. -/
def changeFkRefsErrors (extraWhere : Bool) (a : FkAttempt) :
    Except PgErr FkOutcome :=
  match a.bulk with
  | Option.none => Except.ok ⟨false, false, 0⟩
  | Option.some e =>
    if e == PgErr.undefinedColumn && extraWhere then Except.ok ⟨false, true, 0⟩
    else if e != PgErr.uniqueViolation then Except.error e
    else fkRowFallback a.rowResults 0

/-! ## Direct-SQL value reconciliation and deletion (lines 665-771, 908-930) -/

/-- Column metadata joined from information_schema.columns and
ir_model_fields: name, data_type and ttype. -/
structure ColMeta where
  name : String
  dataType : String
  ttype : FieldType
deriving DecidableEq, Repr

/-- A row of the merged model: id plus its column values. -/
structure SqlRow where
  id : Nat
  cells : List (String × PyVal)

/-- The relational state the direct-SQL reconciliation and deletion steps
touch: the model table (with its column metadata), the external-identifier
registry ir_model_data and the attachment registry ir_attachment, both
modelled as (model, res_id) pairs. -/
structure SqlModelState where
  hasIdColumn : Bool
  cols : List ColMeta
  rows : List SqlRow
  irModelData : List (String × Nat)
  irAttachment : List (String × Nat)

/-- Value of a column in a row. -/
def getCell (r : SqlRow) (c : String) : PyVal :=
  (r.cells.lookup c).getD PyVal.none

/-- Value of a column on the row with the given id. -/
def targetCell (st : SqlModelState) (i : Nat) (c : String) : PyVal :=
  match st.rows.find? (fun r => r.id == i) with
  | Option.some r => getCell r c
  | Option.none => PyVal.none

/-- DELETE FROM ir_model_data WHERE model = %s AND res_id IN %s. -/
def deleteIrModelData (modelName : String) (recordIds : List Nat)
    (st : SqlModelState) : SqlModelState :=
  ⟨st.hasIdColumn, st.cols, st.rows,
   st.irModelData.filter (fun e => !(e.1 == modelName && recordIds.contains e.2)),
   st.irAttachment⟩

/-- DELETE FROM ir_attachment WHERE res_model = %s AND res_id IN %s. -/
def deleteIrAttachment (modelName : String) (recordIds : List Nat)
    (st : SqlModelState) : SqlModelState :=
  ⟨st.hasIdColumn, st.cols, st.rows, st.irModelData,
   st.irAttachment.filter (fun e => !(e.1 == modelName && recordIds.contains e.2))⟩

/-- DELETE FROM model_table WHERE id IN %s. -/
def deleteModelRows (recordIds : List Nat) (st : SqlModelState) :
    SqlModelState :=
  ⟨st.hasIdColumn, st.cols, st.rows.filter (fun r => !(recordIds.contains r.id)),
   st.irModelData, st.irAttachment⟩

/-- Embedding of _delete_records_sql (lines 908-930): three delete
statements, external identifiers first, then attachments, then the
duplicate rows themselves. -/
def deleteRecordsSql (modelName : String) (recordIds : List Nat)
    (st : SqlModelState) : SqlModelState :=
  deleteModelRows recordIds
    (deleteIrAttachment modelName recordIds
      (deleteIrModelData modelName recordIds st))

/-- The reserved wildcard key check: field_spec.get(
openupgrade_other_fields, empty) == preserve. -/
def fsPreserve (fieldSpec : List (String × String)) : Bool :=
  (fieldSpec.lookup "openupgrade_other_fields").getD "" == "preserve"

/-- Result of the direct-SQL reconciliation: the new state, the columns
written to the survivor row, and whether _delete_records_sql ran. -/
structure AdjustResult where
  state : SqlModelState
  wroteCols : List String
  didDelete : Bool

/-- UPDATE model_table SET (new values) WHERE id = target. -/
def updateTargetRow (st : SqlModelState) (targetRecordId : Nat)
    (newVals : List (String × PyVal)) : SqlModelState :=
  ⟨st.hasIdColumn, st.cols,
   st.rows.map (fun r =>
     if r.id == targetRecordId then ⟨r.id, pyDictUnion r.cells newVals⟩ else r),
   st.irModelData, st.irAttachment⟩

/-- The per-column candidate values (vals) computed by
_adjust_merged_values_sql (lines 683-733): the rows of
(target, duplicates) are fetched, and apply_operations_by_field_type runs
per column unless the reserved preserve key excludes it.  serialized
values are stored structured in this model, so the json.loads step is the
identity. -/
def adjustVals (recordIds : List Nat) (targetRecordId : Nat)
    (fieldSpec : List (String × String)) (st : SqlModelState) :
    List (String × PyVal) :=
  st.cols.foldl (fun acc cm =>
    if fsPreserve fieldSpec && !(fieldSpec.any (fun kv => kv.1 == cm.name)) then
      acc
    else
      pyDictUnion acc
        (applyOperationsByFieldType Method.sql sqlCtx fieldSpec
          (((targetRecordId :: recordIds).filterMap
            (fun i => st.rows.find? (fun r => r.id == i))).map
            (fun r => getCell r cm.name))
          (if cm.dataType == "jsonb" then FieldType.jsonb else cm.ttype)
          cm.name (fieldSpec.lookup cm.name)).vals) []

/-- The curation step of _adjust_merged_values_sql (lines 736-749): a
candidate is kept exactly when it differs from record_vals[0] — which in
the source is the whole fetched target-row dict, not the corresponding
column entry of it. -/
def adjustNewVals (recordIds : List Nat) (targetRecordId : Nat)
    (fieldSpec : List (String × String)) (st : SqlModelState) :
    List (String × PyVal) :=
  (adjustVals recordIds targetRecordId fieldSpec st).filter
    (fun kv => !pyEq kv.2 (PyVal.dict
      ((adjustVals recordIds targetRecordId fieldSpec st).map
        (fun kv2 => (kv2.1, targetCell st targetRecordId kv2.1)))))

/-- Embedding of _adjust_merged_values_sql (lines 665-771): nothing
happens without an id column or when vals or new_vals come out empty;
otherwise _delete_records_sql runs first when requested, then the UPDATE
of the survivor row. -/
def adjustMergedValuesSql (modelName : String) (recordIds : List Nat)
    (targetRecordId : Nat) (fieldSpec : List (String × String))
    (delete : Bool) (st : SqlModelState) : AdjustResult :=
  if !st.hasIdColumn then ⟨st, [], false⟩ else
  if (adjustVals recordIds targetRecordId fieldSpec st).isEmpty then
    ⟨st, [], false⟩ else
  if (adjustNewVals recordIds targetRecordId fieldSpec st).isEmpty then
    ⟨st, [], false⟩ else
  ⟨updateTargetRow
      (if delete then deleteRecordsSql modelName recordIds st else st)
      targetRecordId (adjustNewVals recordIds targetRecordId fieldSpec st),
   (adjustNewVals recordIds targetRecordId fieldSpec st).map (fun kv => kv.1),
   delete⟩

/-- The value-reconciliation/deletion dispatch at the end of the direct
branch of merge_records (lines 1094-1101): with a field_spec the work is
delegated to _adjust_merged_values_sql, otherwise the origin records are
deleted directly when requested. -/
def mergeValuesAndDeleteSql (modelName : String) (recordIds : List Nat)
    (targetRecordId : Nat) (fieldSpec : Option (List (String × String)))
    (delete : Bool) (st : SqlModelState) : AdjustResult :=
  match fieldSpec with
  | Option.some fs =>
    adjustMergedValuesSql modelName recordIds targetRecordId fs delete st
  | Option.none =>
    if delete then
      ⟨deleteRecordsSql modelName recordIds st, [], true⟩
    else ⟨st, [], false⟩

/-! ## Polymorphic adapter, followers branch: _change_generic (lines 774-905) -/

/-- A mail_followers row: its id, the res_model tag, the followed res_id
and the correlating partner. -/
structure Follower where
  frid : Nat
  model : String
  resId : Nat
  partner : Nat
deriving DecidableEq, Repr

/-- The subquery SELECT partner_id FROM table WHERE res_id = target AND
res_model = model, used to block updates that would duplicate a
survivor-side follower row. -/
def hasSurvivorRow (m : String) (targetRecordId p : Nat)
    (rows : List Follower) : Bool :=
  rows.any (fun r2 =>
    r2.resId == targetRecordId && r2.model == m && r2.partner == p)

/-- One per-record UPDATE of the followers branch (lines 876-894): all
rows of this duplicate whose partner has no survivor-side row in the
current table are repointed; the NOT IN subquery reads the state the
statement started from. -/
def followersStep (m : String) (targetRecordId : Nat)
    (rows : List Follower) (recId : Nat) : List Follower :=
  rows.map (fun r =>
    if r.model == m && r.resId == recId
        && !hasSurvivorRow m targetRecordId r.partner rows then
      ⟨r.frid, r.model, targetRecordId, r.partner⟩
    else r)

/-- The closing DELETE of the followers branch (lines 895-905): remaining
rows still referencing a duplicate are dropped. -/
def followersFinalDelete (m : String) (recordIds : List Nat)
    (rows : List Follower) : List Follower :=
  rows.filter (fun r => !(r.model == m && recordIds.contains r.resId))

/-- The direct-SQL followers branch of _change_generic, as invoked from
merge_records (new_model_name is None there): one guarded UPDATE per
duplicate id, then the closing DELETE. -/
def changeGenericFollowersSql (m : String) (recordIds : List Nat)
    (targetRecordId : Nat) (rows : List Follower) : List Follower :=
  followersFinalDelete m recordIds
    (recordIds.foldl (followersStep m targetRecordId) rows)

/-- The direct-SQL branch of _change_generic for the non-followers
subsystems (lines 860-874): a single unguarded bulk repoint. -/
def changeGenericSimpleSql (m : String) (recordIds : List Nat)
    (targetRecordId : Nat) (rows : List Follower) : List Follower :=
  rows.map (fun r =>
    if r.model == m && recordIds.contains r.resId then
      ⟨r.frid, r.model, targetRecordId, r.partner⟩
    else r)

/-- Key on which the followers table is unique. -/
def followerKey (r : Follower) : String × Nat × Nat :=
  (r.model, r.resId, r.partner)

/-- The uniqueness invariant of mail_followers: no two rows share
(res_model, res_id, partner_id). -/
abbrev KeyUnique (rows : List Follower) : Prop :=
  rows.Pairwise (fun a b => followerKey a ≠ followerKey b)

/-! ## Control flow of merge_records (lines 1005-1101) -/

/-- The helper calls merge_records can perform, in the roles named by the
source.  checkRecurrence is the only read-only step; all others mutate the
store. -/
inductive MergeStep where
  | changeGeneric
  | checkRecurrence
  | changeMany2oneRefsOrm
  | changeMany2manyRefsOrm
  | changeReferenceRefsOrm
  | changeTranslationsOrm
  | adjustMergedValuesOrm
  | changeForeignKeyRefs
  | changeReferenceRefsSql
  | changeTranslationsSql
  | adjustMergedValuesSql
  | deleteRecordsSql
deriving DecidableEq, Repr

/-- Whether a step writes to the store. -/
def MergeStep.mutating : MergeStep → Bool
  | MergeStep.checkRecurrence => false
  | _ => true

/-- The two store reads that steer merge_records control flow: whether any
record to merge still exists, and what _check_recurrence returned. -/
structure MergeReads where
  recordsExist : Bool
  recurrence : Bool
deriving DecidableEq, Repr

/-- Result of a merge_records call: the helper calls performed in order,
and the message of the exception raised, if any. -/
structure MergeOutcome where
  trace : List MergeStep
  raised : Option String
deriving DecidableEq, Repr

/-- Control-flow embedding of merge_records (lines 1005-1101): the
precondition check and the order of the helper calls, with the two store
reads supplied by MergeReads.  In ORM mode a missing field_spec defaults
to the empty dict; in direct mode it stays None and decides between value
reconciliation and direct deletion. -/
def mergeRecords (method : Method) (recordIds : List Nat)
    (targetRecordId : Nat) (fieldSpec : Option (List (String × String)))
    (delete : Bool) (reads : MergeReads) : MergeOutcome :=
  let fieldSpec1 :=
    if fieldSpec.isNone && method == Method.orm then Option.some [] else fieldSpec
  if recordIds.contains targetRecordId then
    ⟨[], Option.some
      "You cant put the target record in the list of records to be merged"⟩
  else
    match method with
    | Method.orm =>
      if !reads.recordsExist then ⟨[MergeStep.changeGeneric], Option.none⟩
      else if reads.recurrence then
        ⟨[MergeStep.changeGeneric, MergeStep.checkRecurrence], Option.none⟩
      else
        ⟨[MergeStep.changeGeneric, MergeStep.checkRecurrence,
          MergeStep.changeMany2oneRefsOrm, MergeStep.changeMany2manyRefsOrm,
          MergeStep.changeReferenceRefsOrm, MergeStep.changeTranslationsOrm,
          MergeStep.adjustMergedValuesOrm], Option.none⟩
    | Method.sql =>
      if !reads.recordsExist then ⟨[MergeStep.changeGeneric], Option.none⟩
      else if reads.recurrence then
        ⟨[MergeStep.changeGeneric, MergeStep.checkRecurrence], Option.none⟩
      else
        ⟨[MergeStep.changeGeneric, MergeStep.checkRecurrence,
          MergeStep.changeForeignKeyRefs, MergeStep.changeReferenceRefsSql,
          MergeStep.changeTranslationsSql] ++
          (if fieldSpec1.isSome then [MergeStep.adjustMergedValuesSql]
           else if delete then [MergeStep.deleteRecordsSql] else []),
         Option.none⟩

/-! ## Concrete states used by single-input theorems -/

/-- FK table with its own id column and a unique index on (fk, other):
row 1 references duplicate 5 and collides with row 2 on the index. -/
def fkDemoTable : FkTable := ⟨true, true, [⟨1, 5, 100⟩, ⟨2, 9, 100⟩]⟩

/-- Junction-style FK table (no id column) with the composite unique key:
two duplicate-side rows collide with the survivor-side row. -/
def fkDemoJunction : FkTable :=
  ⟨false, true, [⟨0, 5, 100⟩, ⟨0, 9, 100⟩, ⟨0, 6, 100⟩]⟩

/-- Model state with one integer column x: survivor row 1 has x = 2,
duplicate row 2 has x = 1, and the registries hold entries for the
duplicate. -/
def sqlDemoState : SqlModelState :=
  ⟨true, [⟨"x", "integer", FieldType.integer⟩],
   [⟨1, [("x", PyVal.num 2)]⟩, ⟨2, [("x", PyVal.num 1)]⟩],
   [("res.partner", 2)], [("res.partner", 2)]⟩

/-- Follower rows: partner 7 follows the two duplicates 1 and 2 of
res.partner, and nobody follows the survivor 10. -/
def followersDemoRows : List Follower :=
  [⟨1, "res.partner", 1, 7⟩, ⟨2, "res.partner", 2, 7⟩]


/-- ORM context for a many2one_reference field res_id whose companion
column res_model exists on the model: survivor value 1, mapped companion
values for (target, duplicates). -/
def m2orefDemoCtx : OrmCtx :=
  ⟨PyVal.num 1, PyVal.num 1, "res_model", true,
   [PyVal.str "account.invoice", PyVal.str "account.move"]⟩

/-! ## Theorems -/

/-- Claim C4 (code bug): for a numeric field with survivor value 2 and
duplicate values [3, 5, None], sum yields 10 and max yields 5 as the claim
states; but first_from_origin yields 5 — the last duplicate's value — not
3: the source reverses the whole [target, d1, d2, d3] list before taking
the first non-null, contradicting its own docstring, which promises the
content of the first origin record. -/
theorem c4_numeric_operations_eval :
    (applyOperationsByFieldType Method.sql sqlCtx []
      [PyVal.num 2, PyVal.num 3, PyVal.num 5, PyVal.none]
      FieldType.float "x" (Option.some "sum")).vals = [("x", PyVal.num 10)]
    ∧ (applyOperationsByFieldType Method.sql sqlCtx []
      [PyVal.num 2, PyVal.num 3, PyVal.num 5, PyVal.none]
      FieldType.float "x" (Option.some "max")).vals = [("x", PyVal.num 5)]
    ∧ (applyOperationsByFieldType Method.sql sqlCtx []
      [PyVal.num 2, PyVal.num 3, PyVal.num 5, PyVal.none]
      FieldType.float "x" (Option.some "first_from_origin")).vals
      = [("x", PyVal.num 5)]
    ∧ [("x", PyVal.num 5)] ≠ [("x", PyVal.num 3)] := by
  refine ⟨rfl, rfl, rfl, ?_⟩
  simp

/-- Claim C3 (code bug): the direct-SQL reconciliation step is not
idempotent.  With survivor x = 2, duplicate x = 1 and operation max the
candidate value 2 equals the survivor's current value, yet the step still
writes column x, because the source compares each candidate against the
whole fetched row dict record_vals[0] instead of against that column's
entry, so a re-run with the same final values writes again. -/
theorem c3_adjust_sql_writes_unchanged_value :
    targetCell sqlDemoState 1 "x" = PyVal.num 2
    ∧ (adjustMergedValuesSql "res.partner" [2] 1 [("x", "max")] false
        sqlDemoState).wroteCols = ["x"] :=
  ⟨rfl, rfl⟩

/-- Claim C7: a merge request whose target id is contained in the record
ids raises synchronously and performs no helper call at all, hence no
mutation of the store. -/
theorem c7_target_in_records_rejected (method : Method)
    (recordIds : List Nat) (targetRecordId : Nat)
    (fieldSpec : Option (List (String × String))) (delete : Bool)
    (reads : MergeReads)
    (h : recordIds.contains targetRecordId = true) :
    (mergeRecords method recordIds targetRecordId fieldSpec delete
      reads).raised.isSome = true
    ∧ (mergeRecords method recordIds targetRecordId fieldSpec delete
      reads).trace = [] := by
  have h2 : targetRecordId ∈ recordIds := by simpa using h
  unfold mergeRecords
  simp [h2]

/-- Witness for c7_target_in_records_rejected at a concrete input. -/
theorem c7_target_in_records_rejected_witness :
    (mergeRecords Method.sql [1] 1 Option.none true ⟨true, false⟩).raised.isSome
      = true
    ∧ (mergeRecords Method.sql [1] 1 Option.none true ⟨true, false⟩).trace
      = [] :=
  c7_target_in_records_rejected Method.sql [1] 1 Option.none true
    ⟨true, false⟩ rfl

/-- Claim C10: in direct mode with the default field_spec = None,
merge_records never calls the value-reconciliation step, and when
delete = True (and the merge proceeds) it calls the direct deletion of the
origin records instead. -/
theorem c10_sql_default_field_spec (recordIds : List Nat)
    (targetRecordId : Nat) (delete : Bool) (reads : MergeReads)
    (h : recordIds.contains targetRecordId = false) :
    ((mergeRecords Method.sql recordIds targetRecordId Option.none delete
      reads).trace.contains MergeStep.adjustMergedValuesSql) = false
    ∧ (delete = true → reads.recordsExist = true → reads.recurrence = false →
      ((mergeRecords Method.sql recordIds targetRecordId Option.none delete
        reads).trace.contains MergeStep.deleteRecordsSql) = true) := by
  have h2 : targetRecordId ∉ recordIds := by simpa using h
  obtain ⟨ex, rc⟩ := reads
  cases ex <;> cases rc <;> cases delete <;> simp [mergeRecords, h2]

/-- Witness for c10_sql_default_field_spec at a concrete input. -/
theorem c10_sql_default_field_spec_witness :
    ((mergeRecords Method.sql [2] 1 Option.none true
      ⟨true, false⟩).trace.contains MergeStep.adjustMergedValuesSql) = false
    ∧ (true = true → true = true → false = false →
      ((mergeRecords Method.sql [2] 1 Option.none true
        ⟨true, false⟩).trace.contains MergeStep.deleteRecordsSql) = true) :=
  c10_sql_default_field_spec [2] 1 true ⟨true, false⟩ rfl

/-- Claim C5, counterexample: on a refused merge (recurrence detected) the
only calls performed are the generic polymorphic rewrite and the
recurrence check itself — the foreign-key relinking never ran, so the
check does not run after relinking and a refusal does not leave the store
in the state of the relinking step. -/
theorem c5_recurrence_before_relink_counterexample :
    (mergeRecords Method.sql [2] 1 Option.none true ⟨true, true⟩).trace
      = [MergeStep.changeGeneric, MergeStep.checkRecurrence]
    ∧ ((mergeRecords Method.sql [2] 1 Option.none true
      ⟨true, true⟩).trace.contains MergeStep.changeForeignKeyRefs) = false
    ∧ (mergeRecords Method.sql [2] 1 Option.none true ⟨true, true⟩).raised
      = Option.none :=
  ⟨rfl, rfl, rfl⟩

/-- Claim C5 as amended: when the recurrence check fires, merge_records
returns without raising (the caller is informed by logging), and the only
mutating call already performed is the generic polymorphic-reference
rewrite — the refusal happens before foreign-key relinking, value
reconciliation and deletion. -/
theorem c5_recurrence_refusal (method : Method) (recordIds : List Nat)
    (targetRecordId : Nat) (fieldSpec : Option (List (String × String)))
    (delete : Bool)
    (h : recordIds.contains targetRecordId = false) :
    (mergeRecords method recordIds targetRecordId fieldSpec delete
      ⟨true, true⟩).raised = Option.none
    ∧ ((mergeRecords method recordIds targetRecordId fieldSpec delete
      ⟨true, true⟩).trace.filter MergeStep.mutating)
      = [MergeStep.changeGeneric] := by
  have h2 : targetRecordId ∉ recordIds := by simpa using h
  cases method <;> simp [mergeRecords, h2, MergeStep.mutating]

/-- Witness for c5_recurrence_refusal at a concrete input. -/
theorem c5_recurrence_refusal_witness :
    (mergeRecords Method.sql [2] 1 Option.none true ⟨true, true⟩).raised
      = Option.none
    ∧ ((mergeRecords Method.sql [2] 1 Option.none true
      ⟨true, true⟩).trace.filter MergeStep.mutating)
      = [MergeStep.changeGeneric] :=
  c5_recurrence_refusal Method.sql [2] 1 Option.none true rfl


/- Helper: the per-row fallback loop never returns a UNIQUE_VIOLATION. -/
theorem fkRowFallback_ne_unique (l : List (Option PgErr)) (n : Nat) :
    fkRowFallback l n ≠ Except.error PgErr.uniqueViolation := by
  induction l generalizing n with
  | nil => simp [fkRowFallback]
  | cons hd tl ih =>
    cases hd with
    | none => simpa [fkRowFallback] using ih n
    | some e =>
      by_cases he : e = PgErr.uniqueViolation
      · subst he
        simpa [fkRowFallback] using ih (n + 1)
      · simp [fkRowFallback, he]

/- Helper: a successful fallback loop reports that the row-by-row retry
ran. -/
theorem fkRowFallback_retried (l : List (Option PgErr)) (n : Nat)
    (o : FkOutcome) (h : fkRowFallback l n = Except.ok o) :
    o.retriedRowByRow = true := by
  induction l generalizing n with
  | nil =>
    simp [fkRowFallback] at h
    subst h
    rfl
  | cons hd tl ih =>
    cases hd with
    | none => exact ih n (by simpa [fkRowFallback] using h)
    | some e =>
      by_cases he : e = PgErr.uniqueViolation
      · subst he
        exact ih (n + 1) (by simpa [fkRowFallback] using h)
      · simp [fkRowFallback, he] at h

/-- Claim C2: for one foreign-key edge as called from merge_records
(no extra_where), a uniqueness violation never surfaces to the caller;
any bulk-update error of a different class is re-raised unchanged; and the
row-by-row retry runs precisely when the bulk update reported a
uniqueness violation. -/
theorem c2_unique_violation_policy :
    (∀ a : FkAttempt,
      changeFkRefsErrors false a ≠ Except.error PgErr.uniqueViolation)
    ∧ (∀ a : FkAttempt, ∀ e : PgErr, a.bulk = Option.some e →
      e ≠ PgErr.uniqueViolation → changeFkRefsErrors false a = Except.error e)
    ∧ (∀ a : FkAttempt, ∀ o : FkOutcome,
      changeFkRefsErrors false a = Except.ok o →
      (o.retriedRowByRow = true ↔ a.bulk = Option.some PgErr.uniqueViolation)) := by
  refine ⟨?_, ?_, ?_⟩
  · intro a
    obtain ⟨bulk, rows⟩ := a
    cases bulk with
    | none => simp [changeFkRefsErrors]
    | some e =>
      by_cases he : e = PgErr.uniqueViolation
      · subst he
        simpa [changeFkRefsErrors] using fkRowFallback_ne_unique rows 0
      · simp [changeFkRefsErrors, he]
  · intro a e hb he
    obtain ⟨bulk, rows⟩ := a
    simp at hb
    subst hb
    simp [changeFkRefsErrors, he]
  · intro a o h
    obtain ⟨bulk, rows⟩ := a
    cases bulk with
    | none =>
      simp [changeFkRefsErrors] at h
      subst h
      simp
    | some e =>
      by_cases he : e = PgErr.uniqueViolation
      · subst he
        simp [changeFkRefsErrors] at h
        simp [fkRowFallback_retried rows 0 o h]
      · simp [changeFkRefsErrors, he] at h

/-- Witness for c2_unique_violation_policy: a bulk error of another class
is re-raised at a concrete input. -/
theorem c2_unique_violation_policy_witness :
    changeFkRefsErrors false ⟨Option.some PgErr.otherError, []⟩
      = Except.error PgErr.otherError :=
  c2_unique_violation_policy.2.1 ⟨Option.some PgErr.otherError, []⟩
    PgErr.otherError rfl (by decide)

/-- Claim C1, counterexample: on a referencing table that has its own id
column and a unique index over (fk, other), the per-row retry of the
single colliding row fails again, is rolled back and absorbed, and the row
keeps pointing at duplicate id 5 after _change_foreign_key_refs — a
dangling inbound reference survives the merge. -/
theorem c1_dangling_reference_counterexample :
    ((changeForeignKeyRefsTable [5] 9 fkDemoTable).rows.any
      (fun r => [5].contains r.fk)) = true := rfl

/-- Claim C1 as amended: after _change_foreign_key_refs no row references
a duplicate id, for every junction-style table (no id column of its own,
where unmergeable rows are deleted), and for every table whose set-based
update succeeds; a table with its own id column may keep rows whose
per-row retry still collides. -/
theorem c1_no_dangling_references (recordIds : List Nat)
    (targetRecordId : Nat) (t : FkTable)
    (h1 : recordIds.contains targetRecordId = false)
    (h2 : t.hasId = false
      ∨ (t.uniqFkOther && dupFkKeys
          (bulkUpdateFk recordIds targetRecordId t.rows)) = false) :
    ((changeForeignKeyRefsTable recordIds targetRecordId t).rows.all
      (fun r => !(recordIds.contains r.fk))) = true := by
  unfold changeForeignKeyRefsTable
  by_cases hbulk : (!(t.uniqFkOther
      && dupFkKeys (bulkUpdateFk recordIds targetRecordId t.rows))) = true
  · rw [if_pos hbulk]
    refine List.all_eq_true.2 ?_
    intro r hr
    replace hr : r ∈ bulkUpdateFk recordIds targetRecordId t.rows := hr
    unfold bulkUpdateFk at hr
    obtain ⟨r0, hr0, hmap⟩ := List.mem_map.1 hr
    by_cases hfk : recordIds.contains r0.fk = true
    · rw [if_pos hfk] at hmap
      subst hmap
      simpa using h1
    · rw [if_neg hfk] at hmap
      subst hmap
      simpa using hfk
  · rw [if_neg hbulk]
    have hb2 : (t.uniqFkOther
        && dupFkKeys (bulkUpdateFk recordIds targetRecordId t.rows)) = true := by
      simpa using hbulk
    have hid : t.hasId = false := h2.resolve_right (by simp [hb2])
    rw [if_neg (by simp [hid])]
    refine List.all_eq_true.2 ?_
    intro r hr
    simpa using (List.mem_filter.1 hr).2

/-- Witness for c1_no_dangling_references at the junction table. -/
theorem c1_no_dangling_references_witness :
    ((changeForeignKeyRefsTable [5, 6] 9 fkDemoJunction).rows.all
      (fun r => !([5, 6].contains r.fk))) = true :=
  c1_no_dangling_references [5, 6] 9 fkDemoJunction rfl (Or.inl rfl)

/-- Claim C9, counterexample: reconciling a many2one_reference field in
ORM mode with the default merge operation deletes the companion
model_field key from the caller's field_spec dict, so the map is not
identical before and after. -/
theorem c9_field_spec_mutated_counterexample :
    (applyOperationsByFieldType Method.orm m2orefDemoCtx
      [("res_model", "first_not_null")] [PyVal.num 3, PyVal.num 4]
      FieldType.many2one_reference "res_id" Option.none).fieldSpec = []
    ∧ ([] : List (String × String)) ≠ [("res_model", "first_not_null")] := by
  refine ⟨rfl, ?_⟩
  simp

/-- Claim C9 as amended: apply_operations_by_field_type returns the
caller's field_spec unchanged in direct-SQL mode and for every field type
other than many2one_reference; only the ORM many2one_reference merge
consumes the model_field key. -/
theorem c9_field_spec_preserved (method : Method) (ctx : OrmCtx)
    (fieldSpec : List (String × String)) (fieldVals0 : List PyVal)
    (fieldType : FieldType) (column : String) (operation0 : Option String)
    (h : method = Method.sql ∨ fieldType ≠ FieldType.many2one_reference) :
    (applyOperationsByFieldType method ctx fieldSpec fieldVals0 fieldType
      column operation0).fieldSpec = fieldSpec := by
  rcases h with h | h
  · subst h
    cases fieldType <;> rfl
  · cases fieldType <;> first
      | exact absurd rfl h
      | cases method <;> rfl

/-- Witness for c9_field_spec_preserved at a concrete input. -/
theorem c9_field_spec_preserved_witness :
    (applyOperationsByFieldType Method.sql sqlCtx [("a", "sum")]
      [PyVal.num 1] FieldType.integer "a" (Option.some "sum")).fieldSpec
      = [("a", "sum")] :=
  c9_field_spec_preserved Method.sql sqlCtx [("a", "sum")] [PyVal.num 1]
    FieldType.integer "a" (Option.some "sum") (Or.inl rfl)

/-- Claim C6, counterexample: a direct-mode merge with delete = True but an
empty field_spec dict computes no candidate values, returns successfully
without calling any delete statement, and leaves the duplicate row and its
registry entries in place. -/
theorem c6_delete_skipped_counterexample :
    (mergeValuesAndDeleteSql "res.partner" [2] 1 (Option.some []) true
      sqlDemoState).didDelete = false
    ∧ ((mergeValuesAndDeleteSql "res.partner" [2] 1 (Option.some []) true
      sqlDemoState).state.rows.any (fun r => r.id == 2)) = true
    ∧ (mergeValuesAndDeleteSql "res.partner" [2] 1 (Option.some []) true
      sqlDemoState).state.irModelData = [("res.partner", 2)]
    ∧ (mergeValuesAndDeleteSql "res.partner" [2] 1 (Option.some []) true
      sqlDemoState).state.irAttachment = [("res.partner", 2)] :=
  ⟨rfl, rfl, rfl, rfl⟩

/-- Claim C6 as amended: in direct mode with delete = True and no
field_spec, after the merge the external-identifier registry, the
attachment registry and the model table hold nothing for the duplicate
ids, through the three delete statements of _delete_records_sql in that
order; with a field_spec, those deletions run exactly when delete is set
and the reconciliation found at least one changed value. -/
theorem c6_direct_delete_cleanup (modelName : String) (recordIds : List Nat)
    (targetRecordId : Nat) (st : SqlModelState) :
    ((mergeValuesAndDeleteSql modelName recordIds targetRecordId Option.none
      true st).state.irModelData.all
      (fun e => !(e.1 == modelName && recordIds.contains e.2))) = true
    ∧ ((mergeValuesAndDeleteSql modelName recordIds targetRecordId Option.none
      true st).state.irAttachment.all
      (fun e => !(e.1 == modelName && recordIds.contains e.2))) = true
    ∧ ((mergeValuesAndDeleteSql modelName recordIds targetRecordId Option.none
      true st).state.rows.all
      (fun r => !(recordIds.contains r.id))) = true
    ∧ (mergeValuesAndDeleteSql modelName recordIds targetRecordId Option.none
      true st).didDelete = true
    ∧ (∀ fs : List (String × String), ∀ d : Bool,
      (mergeValuesAndDeleteSql modelName recordIds targetRecordId
        (Option.some fs) d st).didDelete
      = (d && !(mergeValuesAndDeleteSql modelName recordIds targetRecordId
          (Option.some fs) d st).wroteCols.isEmpty)) := by
  refine ⟨?_, ?_, ?_, rfl, ?_⟩
  · exact List.all_eq_true.2 (fun e he => (List.mem_filter.1 he).2)
  · exact List.all_eq_true.2 (fun e he => (List.mem_filter.1 he).2)
  · exact List.all_eq_true.2 (fun r hr => (List.mem_filter.1 hr).2)
  · intro fs d
    show (adjustMergedValuesSql modelName recordIds targetRecordId fs d
        st).didDelete
      = (d && !(adjustMergedValuesSql modelName recordIds targetRecordId fs d
        st).wroteCols.isEmpty)
    unfold adjustMergedValuesSql
    repeat' split
    all_goals simp_all

/- Helper: one followers UPDATE preserves the uniqueness invariant on
(res_model, res_id, partner_id). -/
theorem followersStep_keyUnique (m : String) (t : Nat)
    (rows : List Follower) (recId : Nat) (h : KeyUnique rows) :
    KeyUnique (followersStep m t rows recId) := by
  unfold followersStep
  refine List.pairwise_map.mpr ?_
  refine h.imp_of_mem ?_
  intro a b ha hb hab
  by_cases ca : (a.model == m && a.resId == recId
      && !hasSurvivorRow m t a.partner rows) = true
  · by_cases cb : (b.model == m && b.resId == recId
        && !hasSurvivorRow m t b.partner rows) = true
    · rw [if_pos ca, if_pos cb]
      simp only [Bool.and_eq_true, beq_iff_eq, Bool.not_eq_true'] at ca cb
      intro hk
      apply hab
      simp only [followerKey, Prod.mk.injEq] at hk ⊢
      exact ⟨hk.1, by rw [ca.1.2, cb.1.2], hk.2.2⟩
    · rw [if_pos ca, if_neg cb]
      simp only [Bool.and_eq_true, beq_iff_eq, Bool.not_eq_true'] at ca
      intro hk
      simp only [followerKey, Prod.mk.injEq] at hk
      have hsurv : hasSurvivorRow m t a.partner rows = true := by
        refine List.any_eq_true.2 ⟨b, hb, ?_⟩
        simp only [Bool.and_eq_true, beq_iff_eq]
        exact ⟨⟨hk.2.1.symm, hk.1.symm.trans ca.1.1⟩, hk.2.2.symm⟩
      rw [ca.2] at hsurv
      exact Bool.noConfusion hsurv
  · by_cases cb : (b.model == m && b.resId == recId
        && !hasSurvivorRow m t b.partner rows) = true
    · rw [if_neg ca, if_pos cb]
      simp only [Bool.and_eq_true, beq_iff_eq, Bool.not_eq_true'] at cb
      intro hk
      simp only [followerKey, Prod.mk.injEq] at hk
      have hsurv : hasSurvivorRow m t b.partner rows = true := by
        refine List.any_eq_true.2 ⟨a, ha, ?_⟩
        simp only [Bool.and_eq_true, beq_iff_eq]
        exact ⟨⟨hk.2.1, hk.1.trans cb.1.1⟩, hk.2.2⟩
      rw [cb.2] at hsurv
      exact Bool.noConfusion hsurv
    · rw [if_neg ca, if_neg cb]
      exact hab

/- Helper: the per-duplicate UPDATE loop preserves the uniqueness
invariant. -/
theorem followersFold_keyUnique (m : String) (t : Nat) (ids : List Nat)
    (rows : List Follower) (h : KeyUnique rows) :
    KeyUnique (ids.foldl (followersStep m t) rows) := by
  induction ids generalizing rows with
  | nil => exact h
  | cons i tl ih =>
    exact ih (followersStep m t rows i) (followersStep_keyUnique m t rows i h)

/- Helper: a key-unique follower list holds at most one row per key. -/
theorem keyUnique_countP_le_one (rows : List Follower) (h : KeyUnique rows)
    (k : String × Nat × Nat) :
    rows.countP (fun r => decide (followerKey r = k)) ≤ 1 := by
  induction rows with
  | nil => simp
  | cons r rs ih =>
    rw [List.countP_cons]
    cases h with
    | cons hr hrs =>
      by_cases hk : followerKey r = k
      · have h0 : rs.countP (fun r2 => decide (followerKey r2 = k)) = 0 := by
          rw [List.countP_eq_zero]
          intro a ha
          simp only [decide_eq_true_eq]
          intro hak
          exact hr a ha (hk.trans hak.symm)
        simp [h0, hk]
      · simp [hk]
        exact ih hrs

/- Helper: the image of a row under one followers UPDATE is in the
updated table. -/
theorem followersStep_mem (m : String) (t : Nat) (rows : List Follower)
    (recId : Nat) (r : Follower) (hr : r ∈ rows) :
    (if r.model == m && r.resId == recId
        && !hasSurvivorRow m t r.partner rows then
      (⟨r.frid, r.model, t, r.partner⟩ : Follower)
    else r) ∈ followersStep m t rows recId := by
  unfold followersStep
  exact List.mem_map_of_mem _ hr

/- Helper: every partner following the survivor or a duplicate keeps a
survivor-side row through the per-duplicate UPDATE loop. -/
theorem followersFold_partner (m : String) (t : Nat) (ids : List Nat)
    (rows : List Follower) (p : Nat) (ht : ∀ i ∈ ids, i ≠ t)
    (h : ∃ r ∈ rows, r.model = m ∧ r.partner = p
      ∧ (r.resId = t ∨ r.resId ∈ ids)) :
    ∃ r ∈ ids.foldl (followersStep m t) rows,
      r.model = m ∧ r.partner = p ∧ r.resId = t := by
  induction ids generalizing rows with
  | nil =>
    obtain ⟨r, hr, hm, hp, hres⟩ := h
    rcases hres with hres | hres
    · exact ⟨r, hr, hm, hp, hres⟩
    · simp at hres
  | cons i tl ih =>
    refine ih (followersStep m t rows i)
      (fun j hj => ht j (List.mem_cons_of_mem i hj)) ?_
    obtain ⟨r, hr, hm, hp, hres⟩ := h
    by_cases hs : hasSurvivorRow m t p rows = true
    · obtain ⟨r2, hr2, hcond⟩ := List.any_eq_true.1 hs
      simp only [Bool.and_eq_true, beq_iff_eq] at hcond
      have himg := followersStep_mem m t rows i r2 hr2
      rw [if_neg (by
        simp only [Bool.and_eq_true, beq_iff_eq, Bool.not_eq_true']
        intro hco
        exact ht i (List.mem_cons_self i tl)
          (hco.1.2.symm.trans hcond.1.1))] at himg
      exact ⟨r2, himg, hcond.1.2, hcond.2, Or.inl hcond.1.1⟩
    · rcases hres with hres | hres
      · refine absurd (List.any_eq_true.2 ⟨r, hr, ?_⟩) hs
        simp only [Bool.and_eq_true, beq_iff_eq]
        exact ⟨⟨hres, hm⟩, hp⟩
      · by_cases hri : r.resId = i
        · have himg := followersStep_mem m t rows i r hr
          rw [if_pos (by
            simp only [Bool.and_eq_true, beq_iff_eq, Bool.not_eq_true']
            exact ⟨⟨hm, hri⟩, by rw [hp]; simpa using hs⟩)] at himg
          exact ⟨⟨r.frid, r.model, t, r.partner⟩, himg, hm, hp, Or.inl rfl⟩
        · have htl : r.resId ∈ tl := by
            rcases List.mem_cons.1 hres with he | he
            · exact absurd he hri
            · exact he
          have himg := followersStep_mem m t rows i r hr
          rw [if_neg (by
            simp only [Bool.and_eq_true, beq_iff_eq, Bool.not_eq_true']
            intro hco
            exact hri hco.1.2)] at himg
          exact ⟨r, himg, hm, hp, Or.inr htl⟩

/-- Claim C8, counterexample: partner 7 follows both duplicates and has no
survivor-side row at the start, so by the claim both of its rows should be
repointed; instead, after the first duplicate is processed the second row
collides and is deleted — it is neither kept nor repointed although its
partner already had no survivor-side row. -/
theorem c8_followers_counterexample :
    (followersDemoRows.any (fun r =>
      r.model == "res.partner" && r.resId == 10)) = false
    ∧ changeGenericFollowersSql "res.partner" [1, 2] 10 followersDemoRows
      = [⟨1, "res.partner", 10, 7⟩]
    ∧ (⟨2, "res.partner", 10, 7⟩ : Follower) ∉
      changeGenericFollowersSql "res.partner" [1, 2] 10 followersDemoRows
    ∧ (⟨2, "res.partner", 2, 7⟩ : Follower) ∈ followersDemoRows := by
  refine ⟨rfl, rfl, by decide, by decide⟩

/-- Claim C8 as amended: in direct mode, given the followers table's
uniqueness invariant, after the followers branch no row references a
duplicate id, and every partner that followed the survivor or any
duplicate follows the survivor exactly once — a duplicate's row is
repointed unless its partner already has a survivor-side row at the
moment that duplicate is processed (initially present or created by an
earlier duplicate), in which case it is deleted. -/
theorem c8_followers_dedup (m : String) (recordIds : List Nat)
    (targetRecordId p : Nat) (rows : List Follower)
    (h1 : KeyUnique rows)
    (h2 : targetRecordId ∉ recordIds)
    (h3 : ∃ r ∈ rows, r.model = m ∧ r.partner = p
      ∧ (r.resId = targetRecordId ∨ r.resId ∈ recordIds)) :
    ((changeGenericFollowersSql m recordIds targetRecordId rows).all
      (fun r => !(r.model == m && recordIds.contains r.resId))) = true
    ∧ ((changeGenericFollowersSql m recordIds targetRecordId rows).countP
      (fun r => decide (followerKey r = (m, targetRecordId, p)))) = 1 := by
  constructor
  · exact List.all_eq_true.2 (fun r hr => (List.mem_filter.1 hr).2)
  · have ht : ∀ i ∈ recordIds, i ≠ targetRecordId := by
      intro i hi he
      exact h2 (he ▸ hi)
    have hex := followersFold_partner m targetRecordId recordIds rows p ht h3
    have huniq : KeyUnique
        (recordIds.foldl (followersStep m targetRecordId) rows) :=
      followersFold_keyUnique m targetRecordId recordIds rows h1
    have huniq2 : KeyUnique
        (changeGenericFollowersSql m recordIds targetRecordId rows) :=
      List.Pairwise.sublist (List.filter_sublist _) huniq
    obtain ⟨r, hr, hm, hp, hres⟩ := hex
    have hmem : r ∈ changeGenericFollowersSql m recordIds targetRecordId rows := by
      refine List.mem_filter.2 ⟨hr, ?_⟩
      simp only [Bool.not_eq_true', Bool.and_eq_false_iff]
      right
      simp [hres, h2]
    have hge : 0 < (changeGenericFollowersSql m recordIds targetRecordId
        rows).countP (fun r2 => decide (followerKey r2 = (m, targetRecordId, p))) := by
      refine List.countP_pos_iff.2 ⟨r, hmem, ?_⟩
      simp [followerKey, hm, hp, hres]
    have hle := keyUnique_countP_le_one _ huniq2 (m, targetRecordId, p)
    omega

/-- Witness for c8_followers_dedup at a concrete input. -/
theorem c8_followers_dedup_witness :
    ((changeGenericFollowersSql "res.partner" [1, 2] 10 followersDemoRows).all
      (fun r => !(r.model == "res.partner" && [1, 2].contains r.resId))) = true
    ∧ ((changeGenericFollowersSql "res.partner" [1, 2] 10
      followersDemoRows).countP
      (fun r => decide (followerKey r = ("res.partner", 10, 7)))) = 1 :=
  c8_followers_dedup "res.partner" [1, 2] 10 7 followersDemoRows
    (by decide) (by decide) (by decide)
